import Mathlib

/-!
Verification of the `epd4in2bc` e-paper panel driver and the `Display4in2b`
dual-plane frame buffer, embedded shallowly from the Rust sources
`src/epd4in2bc/mod.rs` and `src/epd4in2b/graphics.rs`.

The driver is modelled as a writer/state monad over a transport-success
oracle: every fallible transport operation (command byte, data bytes,
repeated-byte fill) consumes one oracle tick and either appends an event to
the trace or aborts with a transport error, exactly mirroring the `?`
propagation in the Rust code.  Infallible operations (reset pulse, delays,
busy-wait) append events without consulting the oracle, matching the Rust
functions that return `()` or ignore pin errors.
-/

namespace EpdWaveshare

/-- Modelled from the spec: the tri-color model of `src/color.rs` (not part
of the repository snapshot).  The spec fixes White's byte value 0xFF and bit
value 1, Black's bit value 0, and the invariant that the byte value is the
bit value replicated across all 8 bits; the chromatic variant packs as the
"set" (0) bit like Black. -/
inductive TriColor
  | Black
  | White
  | Chromatic
  deriving DecidableEq, Repr

/-- Modelled from the spec: single-bit packed value of a color. -/
def TriColor.get_bit_value : TriColor → Nat
  | .White => 1
  | .Black => 0
  | .Chromatic => 0

/-- Modelled from the spec: full-byte plane-fill value of a color, the bit
value replicated across all 8 bits. -/
def TriColor.get_byte_value : TriColor → Nat
  | .White => 0xff
  | .Black => 0x00
  | .Chromatic => 0x00

/-- Modelled from the spec: the refresh-mode tag of `src/traits.rs` (not part
of the repository snapshot); one of the two fixed waveform modes. -/
inductive RefreshLut
  | Full
  | Quick
  deriving DecidableEq, Repr

/-- Modelled from the spec: the command table of `src/epd4in2/command.rs`
(not part of the repository snapshot).  Commands are opaque register
addresses; only their identity matters to the driver logic, so they are an
enumeration of the symbolic names used by `src/epd4in2bc/mod.rs`. -/
inductive Command
  | PanelSetting
  | PowerSetting
  | PowerOff
  | PowerOn
  | BoosterSoftStart
  | DeepSleep
  | DataStartTransmission1
  | DataStop
  | DisplayRefresh
  | DataStartTransmission2
  | LutForVcom
  | LutWhiteToWhite
  | LutBlackToWhite
  | LutWhiteToBlack
  | LutBlackToBlack
  | PllControl
  | ResolutionSetting
  | VcmDcSetting
  | VcomAndDataIntervalSetting
  | PartialIn
  | PartialOut
  | PartialWindow
  deriving DecidableEq, Repr

/-- One observable transport-level action of the driver. -/
inductive Event
  | reset (lowUs highUs : Nat)
  | cmd (c : Command)
  | data (d : List Nat)
  | dataXTimes (val : Nat) (reps : Nat)
  | delayUs (us : Nat)
  | waitUntilIdle
  deriving DecidableEq, Repr

/-- Transport environment: `ok k` tells whether the k-th fallible bus
operation succeeds. -/
structure Env where
  ok : Nat → Bool

/-- Driver execution state: count of fallible operations performed so far
and the trace of emitted events. -/
structure St where
  tick : Nat
  trace : List Event
  deriving DecidableEq, Repr

/-- The driver monad: given the transport oracle and current state, either
produce a result and new state or abort with a transport error. -/
def M (α : Type) : Type := Env → St → Except Unit (α × St)

def M.pure {α : Type} (a : α) : M α := fun _ s => .ok (a, s)

def M.bind {α β : Type} (m : M α) (f : α → M β) : M β := fun env s =>
  match m env s with
  | .ok (a, s') => f a env s'
  | .error e => .error e

instance instMonadM : Monad M where
  pure := M.pure
  bind := M.bind

/-- Append an event without consulting the transport oracle (used for the
reset pulse, delays and busy-polling, which are infallible in the source). -/
def emitInfallible (e : Event) : M Unit :=
  fun _ s => .ok ((), ⟨s.tick, s.trace ++ [e]⟩)

/-- Append an event for a fallible bus operation: succeeds exactly when the
oracle allows the current tick. -/
def emitFallible (e : Event) : M Unit :=
  fun env s =>
    if env.ok s.tick then .ok ((), ⟨s.tick + 1, s.trace ++ [e]⟩)
    else .error ()

namespace DisplayInterface

/-- Modelled from the spec: `DisplayInterface::reset` of `src/interface.rs`
(not part of the repository snapshot): timed reset pulse, no failure
propagation. -/
def reset (lowUs highUs : Nat) : M Unit := emitInfallible (.reset lowUs highUs)

/-- Modelled from the spec: `DisplayInterface::cmd`: send one command byte,
propagating any bus failure. -/
def cmd (c : Command) : M Unit := emitFallible (.cmd c)

/-- Modelled from the spec: `DisplayInterface::data`: send a data buffer,
propagating any bus failure. -/
def data (d : List Nat) : M Unit := emitFallible (.data d)

/-- Modelled from the spec: `DisplayInterface::cmd_with_data`: a command
followed by its data payload. -/
def cmd_with_data (c : Command) (d : List Nat) : M Unit := do
  cmd c
  data d

/-- Modelled from the spec: `DisplayInterface::data_x_times`: flood-fill a
register with `reps` repetitions of one byte. -/
def data_x_times (val reps : Nat) : M Unit := emitFallible (.dataXTimes val reps)

/-- Modelled from the spec: `DisplayInterface::wait_until_idle`: busy-poll
until idle; returns no error. -/
def wait_until_idle : M Unit := emitInfallible .waitUntilIdle

end DisplayInterface

/-- Delay provider (`delay.delay_us` in the source): infallible. -/
def delay_us (us : Nat) : M Unit := emitInfallible (.delayUs us)

/-- Panel width in pixels; `src/epd4in2/mod.rs` constant, asserted to be 400
by the test module of `src/epd4in2bc/mod.rs`. -/
def WIDTH : Nat := 400

/-- Panel height in pixels; asserted to be 300 by the test module of
`src/epd4in2bc/mod.rs`. -/
def HEIGHT : Nat := 300

/-- Modelled from the spec: `NUM_DISPLAY_BITS` of `src/epd4in2b/mod.rs` (not
part of the repository snapshot): one plane's byte count,
`height * bytes_per_row(width)` = 300 * 50. -/
def NUM_DISPLAY_BITS : Nat := WIDTH / 8 * HEIGHT

/-- Modelled from the spec: the ten fixed LUT byte sequences of
`src/epd4in2/constants.rs` (not part of the repository snapshot).  The spec
fixes only that they are five fixed sequences per refresh mode, so their
contents are kept as parameters of the model. -/
structure LutConstants where
  LUT_VCOM0 : List Nat
  LUT_WW : List Nat
  LUT_BW : List Nat
  LUT_WB : List Nat
  LUT_BB : List Nat
  LUT_VCOM0_QUICK : List Nat
  LUT_WW_QUICK : List Nat
  LUT_BW_QUICK : List Nat
  LUT_WB_QUICK : List Nat
  LUT_BB_QUICK : List Nat

/-- Default background color, `src/epd4in2bc/mod.rs` line 71. -/
def DEFAULT_BACKGROUND_COLOR : TriColor := TriColor.White

/-- The driver's mutable fields (the connection interface is represented by
the monad itself). -/
structure Epd where
  color : TriColor
  refresh : RefreshLut
  deriving DecidableEq, Repr

namespace Epd4in2bc

/-- Source: private helper `command`. -/
def command (c : Command) : M Unit := DisplayInterface.cmd c

/-- Source: private helper `send_data`. -/
def send_data (d : List Nat) : M Unit := DisplayInterface.data d

/-- Source: private helper `cmd_with_data`. -/
def cmd_with_data (c : Command) (d : List Nat) : M Unit :=
  DisplayInterface.cmd_with_data c d

/-- Source: `width()`. -/
def width : Nat := WIDTH

/-- Source: `height()`. -/
def height : Nat := HEIGHT

/-- Source: `wait_until_idle`, which busy-polls and always returns `Ok`. -/
def wait_until_idle (_epd : Epd) : M Unit := DisplayInterface.wait_until_idle

/-- Source: `send_resolution`; `as u8` casts become `% 256`. -/
def send_resolution : M Unit := do
  command .ResolutionSetting
  send_data [(width >>> 8) % 256]
  send_data [width % 256]
  send_data [(height >>> 8) % 256]
  send_data [height % 256]

/-- Source: `set_lut_helper`: wait idle, then load the five LUT registers. -/
def set_lut_helper (epd : Epd)
    (lut_vcom lut_ww lut_bw lut_wb lut_bb : List Nat) : M Unit := do
  wait_until_idle epd
  cmd_with_data .LutForVcom lut_vcom
  cmd_with_data .LutWhiteToWhite lut_ww
  cmd_with_data .LutBlackToWhite lut_bw
  cmd_with_data .LutWhiteToBlack lut_wb
  cmd_with_data .LutBlackToBlack lut_bb

/-- Source: `set_lut`: optionally update the refresh mode, then load the
tables selected by the (new) mode. -/
def set_lut (L : LutConstants) (epd : Epd)
    (refresh_rate : Option RefreshLut) : M Epd := do
  let epd :=
    match refresh_rate with
    | some refresh_lut => { epd with refresh := refresh_lut }
    | none => epd
  match epd.refresh with
  | .Full => do
      set_lut_helper epd L.LUT_VCOM0 L.LUT_WW L.LUT_BW L.LUT_WB L.LUT_BB
      M.pure epd
  | .Quick => do
      set_lut_helper epd L.LUT_VCOM0_QUICK L.LUT_WW_QUICK L.LUT_BW_QUICK
        L.LUT_WB_QUICK L.LUT_BB_QUICK
      M.pure epd

/-- Source: `init`: reset pulse, configuration registers, resolution, LUT
load, power-on, settle delay, wait idle. -/
def init (L : LutConstants) (epd : Epd) : M Epd := do
  DisplayInterface.reset 10000 10000
  DisplayInterface.cmd_with_data .PowerSetting [0x03, 0x00, 0x2b, 0x2b, 0xff]
  DisplayInterface.cmd_with_data .BoosterSoftStart [0x17, 0x17, 0x17]
  cmd_with_data .PanelSetting [0x0F]
  cmd_with_data .PllControl [0x3C]
  send_resolution
  DisplayInterface.cmd_with_data .VcmDcSetting [0x12]
  DisplayInterface.cmd_with_data .VcomAndDataIntervalSetting [0x7f]
  let epd ← set_lut L epd none
  command .PowerOn
  delay_us 5000
  wait_until_idle epd
  M.pure epd

/-- Source: `new`: build the driver value with the default background color
and the Quick refresh mode, run `init`, and return the driver only if the
whole sequence succeeded. -/
def new (L : LutConstants) : M Epd := do
  let epd : Epd := { color := DEFAULT_BACKGROUND_COLOR, refresh := RefreshLut.Quick }
  let epd ← init L epd
  M.pure epd

/-- Source: `sleep`; the `for _ in 0..4` loop of single zero bytes is
unrolled. -/
def sleep (epd : Epd) : M Unit := do
  wait_until_idle epd
  DisplayInterface.cmd_with_data .VcomAndDataIntervalSetting [0x7f]
  command .VcmDcSetting
  command .PanelSetting
  command .PowerSetting
  send_data [0x00]
  send_data [0x00]
  send_data [0x00]
  send_data [0x00]
  command .PowerOff
  wait_until_idle epd
  DisplayInterface.cmd_with_data .DeepSleep [0xA5]

/-- Source: `wake_up` re-runs `init` in full. -/
def wake_up (L : LutConstants) (epd : Epd) : M Epd := init L epd

/-- Source: `update_frame`. -/
def update_frame (epd : Epd) (buffer : List Nat) : M Unit := do
  wait_until_idle epd
  DisplayInterface.cmd .DataStartTransmission1
  DisplayInterface.data buffer
  let color_value := epd.color.get_byte_value
  DisplayInterface.data_x_times color_value (WIDTH / 8 * HEIGHT)
  DisplayInterface.cmd_with_data .DataStartTransmission2 buffer
  command .DataStop

/-- Source: `update_partial_frame`.  The buffer-size check in the source has
an empty body (its error return is commented out), so nothing is validated.
All `as u8` casts become `% 256`. -/
def update_partial_frame (epd : Epd) (buffer : List Nat)
    (x y w h : Nat) : M Unit := do
  wait_until_idle epd
  command .PartialIn
  command .PartialWindow
  send_data [(x >>> 8) % 256]
  send_data [(x &&& 0xf8) % 256]
  send_data [(((x &&& 0xf8) + w - 1) >>> 8) % 256]
  send_data [(((x &&& 0xf8) + w - 1) ||| 0x07) % 256]
  send_data [(y >>> 8) % 256]
  send_data [(y &&& 0xff) % 256]
  send_data [((y + h - 1) >>> 8) % 256]
  send_data [((y + h - 1) &&& 0xff) % 256]
  send_data [0x01]
  delay_us 2000
  command .DataStartTransmission1
  send_data buffer
  let color_value := epd.color.get_bit_value
  DisplayInterface.cmd .DataStartTransmission2
  DisplayInterface.data_x_times color_value (WIDTH / 8 * HEIGHT)
  delay_us 2000
  command .PartialOut

/-- Source: `display_frame`: reload the LUT for the active mode, refresh,
settle, wait idle. -/
def display_frame (L : LutConstants) (epd : Epd) : M Epd := do
  let epd ← set_lut L epd none
  command .DisplayRefresh
  delay_us 100000
  wait_until_idle epd
  M.pure epd

/-- Source: `update_and_display_frame`: `update_frame` then the refresh
command, with no LUT reload of its own. -/
def update_and_display_frame (epd : Epd) (buffer : List Nat) : M Unit := do
  update_frame epd buffer
  command .DisplayRefresh

/-- Source: `clear_frame`: note that the flood value is
`self.color.get_bit_value()`, not the byte value. -/
def clear_frame (epd : Epd) : M Unit := do
  wait_until_idle epd
  send_resolution
  let color_value := epd.color.get_bit_value
  DisplayInterface.cmd .DataStartTransmission1
  DisplayInterface.data_x_times color_value (WIDTH / 8 * HEIGHT)
  DisplayInterface.cmd .DataStartTransmission2
  DisplayInterface.data_x_times color_value (WIDTH / 8 * HEIGHT)

/-- Source: `shift_display`: the partial-window coordinate payload. -/
def shift_display (x y w h : Nat) : M Unit := do
  send_data [(x >>> 8) % 256]
  let tmp := x &&& 0xf8
  send_data [tmp % 256]
  let tmp := tmp + w - 1
  send_data [(tmp >>> 8) % 256]
  send_data [(tmp ||| 0x07) % 256]
  send_data [(y >>> 8) % 256]
  send_data [y % 256]
  send_data [((y + h - 1) >>> 8) % 256]
  send_data [(y + h - 1) % 256]
  send_data [0x01]

/-- Source: `update_color_frame` of the `WaveshareThreeColorDisplay`
implementation. -/
def update_achromatic_frame (_epd : Epd) (black : List Nat) : M Unit := do
  DisplayInterface.cmd .DataStartTransmission1
  DisplayInterface.data black

/-- Source: `update_chromatic_frame`: streams plane 2 and then waits idle. -/
def update_chromatic_frame (epd : Epd) (chromatic : List Nat) : M Unit := do
  DisplayInterface.cmd .DataStartTransmission2
  DisplayInterface.data chromatic
  wait_until_idle epd

/-- Source: `update_color_frame`: achromatic plane first, chromatic plane
second. -/
def update_color_frame (epd : Epd) (black chromatic : List Nat) : M Unit := do
  update_achromatic_frame epd black
  update_chromatic_frame epd chromatic

/-- Source: `update_old_frame` of the `QuickRefresh` implementation. -/
def update_old_frame (epd : Epd) (buffer : List Nat) : M Unit := do
  wait_until_idle epd
  DisplayInterface.cmd .DataStartTransmission1
  DisplayInterface.data buffer

/-- Source: `update_new_frame`: re-sends the resolution before plane 2. -/
def update_new_frame (epd : Epd) (buffer : List Nat) : M Unit := do
  wait_until_idle epd
  send_resolution
  DisplayInterface.cmd .DataStartTransmission2
  DisplayInterface.data buffer

/-- Source: `update_partial_old_frame`.  The buffer-size check has an empty
body (its error return is commented out). -/
def update_partial_old_frame (epd : Epd) (buffer : List Nat)
    (x y w h : Nat) : M Unit := do
  wait_until_idle epd
  DisplayInterface.cmd .PartialIn
  DisplayInterface.cmd .PartialWindow
  shift_display x y w h
  DisplayInterface.cmd .DataStartTransmission1
  DisplayInterface.data buffer

/-- Source: `update_partial_new_frame`.  The buffer-size check has an empty
body (its error return is commented out). -/
def update_partial_new_frame (epd : Epd) (buffer : List Nat)
    (x y w h : Nat) : M Unit := do
  wait_until_idle epd
  shift_display x y w h
  DisplayInterface.cmd .DataStartTransmission2
  DisplayInterface.data buffer
  DisplayInterface.cmd .PartialOut

/-- Source: `clear_partial_frame`: floods both planes of the window with
`self.color.get_byte_value()`. -/
def clear_partial_frame (epd : Epd) (x y w h : Nat) : M Unit := do
  wait_until_idle epd
  send_resolution
  let color_value := epd.color.get_byte_value
  DisplayInterface.cmd .PartialIn
  DisplayInterface.cmd .PartialWindow
  shift_display x y w h
  DisplayInterface.cmd .DataStartTransmission1
  DisplayInterface.data_x_times color_value (w / 8 * h)
  DisplayInterface.cmd .DataStartTransmission2
  DisplayInterface.data_x_times color_value (w / 8 * h)
  DisplayInterface.cmd .PartialOut

end Epd4in2bc

/-- Modelled from the spec: the rotation tag of `src/graphics.rs` (not part
of the repository snapshot); pure coordinate transform with four values. -/
inductive DisplayRotation
  | Rotate0
  | Rotate90
  | Rotate180
  | Rotate270
  deriving DecidableEq, Repr

/-- The dual-plane frame buffer of `src/epd4in2b/graphics.rs`: one backing
array of `2 * NUM_DISPLAY_BITS` bytes holding the black/white plane followed
by the chromatic plane.  The Rust fixed-size array type is rendered as a
list with a length invariant. -/
structure Display4in2b where
  buffer : List Nat
  hbuf : buffer.length = 2 * NUM_DISPLAY_BITS
  rotation : DisplayRotation

/-- Source: `chromatic_offset` of the `TriDisplay` implementation. -/
def Display4in2b.chromatic_offset (_d : Display4in2b) : Nat := NUM_DISPLAY_BITS

/-- Source: `bw_buffer`, the slice `buffer[0..chromatic_offset]`. -/
def Display4in2b.bw_buffer (d : Display4in2b) : List Nat :=
  d.buffer.take d.chromatic_offset

/-- Source: `chromatic_buffer`, the slice `buffer[chromatic_offset..]`. -/
def Display4in2b.chromatic_buffer (d : Display4in2b) : List Nat :=
  d.buffer.drop d.chromatic_offset

/-- The all-success transport oracle. -/
def allOk : Env := ⟨fun _ => true⟩

/-- The initial execution state: no operations performed, empty trace. -/
def st0 : St := ⟨0, []⟩

/-- Whether a monadic run result is a success. -/
def isOkE {α : Type} : Except Unit (α × St) → Bool
  | .ok _ => true
  | .error _ => false

/-- Run an operation under the all-success oracle from the initial state and
return its trace (none on transport error, which cannot happen here). -/
def runTrace {α : Type} (m : M α) : Option (List Event) :=
  match m allOk st0 with
  | .ok (_, s) => some s.trace
  | .error _ => none

/-- The command/data payload of a trace: commands, data buffers and
flood-fills, with busy-waits, delays and the reset pulse dropped. -/
def Event.isPayload : Event → Bool
  | .cmd _ => true
  | .data _ => true
  | .dataXTimes _ _ => true
  | _ => false

/-- Filter a trace down to its command/data payload. -/
def payload (tr : List Event) : List Event := tr.filter Event.isPayload

/-- Command/data payload of a run. -/
def payloadTrace {α : Type} (m : M α) : Option (List Event) :=
  (runTrace m).map payload

/-- The ten events of one full LUT load (five command/data register writes)
for a given refresh mode. -/
def lutLoads (L : LutConstants) : RefreshLut → List Event
  | .Full =>
      [.cmd .LutForVcom, .data L.LUT_VCOM0,
       .cmd .LutWhiteToWhite, .data L.LUT_WW,
       .cmd .LutBlackToWhite, .data L.LUT_BW,
       .cmd .LutWhiteToBlack, .data L.LUT_WB,
       .cmd .LutBlackToBlack, .data L.LUT_BB]
  | .Quick =>
      [.cmd .LutForVcom, .data L.LUT_VCOM0_QUICK,
       .cmd .LutWhiteToWhite, .data L.LUT_WW_QUICK,
       .cmd .LutBlackToWhite, .data L.LUT_BW_QUICK,
       .cmd .LutWhiteToBlack, .data L.LUT_WB_QUICK,
       .cmd .LutBlackToBlack, .data L.LUT_BB_QUICK]

/-- A concrete LUT-constant assignment with pairwise distinct tables, used
to instantiate universally quantified statements. -/
def L0 : LutConstants :=
  ⟨[1], [2], [3], [4], [5], [6], [7], [8], [9], [10]⟩

/-- The spec scenario: stream the old frame, stream the new frame, then
refresh. -/
def quickSequence (L : LutConstants) (epd : Epd) (bufA bufB : List Nat) : M Epd := do
  Epd4in2bc.update_old_frame epd bufA
  Epd4in2bc.update_new_frame epd bufB
  Epd4in2bc.display_frame L epd

/-- The driver value a successful run constructed, if any. -/
def resultValue {α : Type} : Except Unit (α × St) → Option α
  | .ok (a, _) => some a
  | .error _ => none

/-- A concrete frame buffer (all bytes 0xFF, no rotation) used to
instantiate universally quantified statements. -/
def d0 : Display4in2b :=
  ⟨List.replicate (2 * NUM_DISPLAY_BITS) 0xff, List.length_replicate _ _,
   DisplayRotation.Rotate0⟩

theorem M.run_bind {α β : Type} (m : M α) (f : α → M β) (env : Env) (s : St) :
    (m >>= f) env s =
      match m env s with
      | .ok (a, s') => f a env s'
      | .error e => .error e := rfl

theorem M.run_pure {α : Type} (a : α) (env : Env) (s : St) :
    (Pure.pure a : M α) env s = .ok (a, s) := rfl

theorem and_f8_mod_eq (x : Nat) : (x &&& 0xf8) % 256 = x &&& 0xf8 :=
  Nat.mod_eq_of_lt (lt_of_le_of_lt Nat.and_le_right (by decide))

theorem and_ff_mod_eq (y : Nat) : (y &&& 0xff) % 256 = y % 256 := by
  have h : y &&& 0xff = y % 256 := Nat.and_pow_two_sub_one_eq_mod y 8
  rw [h, Nat.mod_mod_of_dvd y (dvd_refl 256)]

/-- C5: the sleep operation performs, in order: wait idle; the
border-float, VCOM-to-0V and panel-off settings; exactly four single zero
data bytes after the power-setting command; power-off; wait idle; and
finally the deep-sleep command with its fixed confirmation byte 0xA5 as the
last transmission. -/
theorem sleep_command_trace (epd : Epd) :
    runTrace (Epd4in2bc.sleep epd) =
      some [.waitUntilIdle,
            .cmd .VcomAndDataIntervalSetting, .data [0x7f],
            .cmd .VcmDcSetting, .cmd .PanelSetting, .cmd .PowerSetting,
            .data [0x00], .data [0x00], .data [0x00], .data [0x00],
            .cmd .PowerOff, .waitUntilIdle,
            .cmd .DeepSleep, .data [0xA5]] := by
  simp [runTrace, st0, allOk, M.run_bind, M.run_pure, M.pure,
    emitInfallible, emitFallible, delay_us,
    DisplayInterface.cmd, DisplayInterface.data, DisplayInterface.cmd_with_data,
    DisplayInterface.wait_until_idle,
    Epd4in2bc.sleep, Epd4in2bc.command, Epd4in2bc.send_data,
    Epd4in2bc.cmd_with_data, Epd4in2bc.wait_until_idle]

/-- C7: update_color_frame writes the achromatic buffer first and the
chromatic buffer second; the achromatic write performs no wait-idle while
the chromatic write waits idle after streaming, so the combined operation
ends with a wait-idle. -/
theorem update_color_frame_order_wait (epd : Epd) (black chromatic : List Nat) :
    runTrace (Epd4in2bc.update_color_frame epd black chromatic) =
      some [.cmd .DataStartTransmission1, .data black,
            .cmd .DataStartTransmission2, .data chromatic, .waitUntilIdle] ∧
    runTrace (Epd4in2bc.update_achromatic_frame epd black) =
      some [.cmd .DataStartTransmission1, .data black] ∧
    runTrace (Epd4in2bc.update_chromatic_frame epd chromatic) =
      some [.cmd .DataStartTransmission2, .data chromatic, .waitUntilIdle] ∧
    Event.waitUntilIdle ∉
      (runTrace (Epd4in2bc.update_achromatic_frame epd black)).getD [] ∧
    ((runTrace (Epd4in2bc.update_color_frame epd black chromatic)).getD
        []).getLast? = some Event.waitUntilIdle := by
  refine ⟨?_, ?_, ?_, ?_, ?_⟩ <;>
    simp [runTrace, st0, allOk, M.run_bind, M.run_pure, M.pure,
      emitInfallible, emitFallible,
      DisplayInterface.cmd, DisplayInterface.data,
      DisplayInterface.wait_until_idle,
      Epd4in2bc.update_color_frame, Epd4in2bc.update_achromatic_frame,
      Epd4in2bc.update_chromatic_frame, Epd4in2bc.wait_until_idle]

/-- C7 witness: the combined operation evaluated at concrete buffers. -/
theorem update_color_frame_order_wait_witness :
    runTrace (Epd4in2bc.update_color_frame
        ⟨TriColor.White, RefreshLut.Quick⟩ [0xAA] [0x55]) =
      some [.cmd .DataStartTransmission1, .data [0xAA],
            .cmd .DataStartTransmission2, .data [0x55], .waitUntilIdle] :=
  (update_color_frame_order_wait ⟨TriColor.White, RefreshLut.Quick⟩
    [0xAA] [0x55]).1

/-- C3: the claim says clear_frame floods each plane with the background
color's full byte value (0xFF for White); the code instead floods both
planes with the single-bit value `get_bit_value` (1 for White), even though
the sibling clear_partial_frame uses the byte value for the identical fill.
This theorem evaluates the code at the failing input (the default White
background): both data-start-transmission registers receive
WIDTH/8 * HEIGHT repetitions of 1, not of 0xFF. -/
theorem clear_frame_floods_bit_value :
    TriColor.White.get_byte_value = 0xff ∧
    TriColor.White.get_bit_value = 1 ∧
    runTrace (Epd4in2bc.clear_frame ⟨TriColor.White, RefreshLut.Quick⟩) =
      some [.waitUntilIdle, .cmd .ResolutionSetting,
            .data [1], .data [144], .data [1], .data [44],
            .cmd .DataStartTransmission1, .dataXTimes 1 (WIDTH / 8 * HEIGHT),
            .cmd .DataStartTransmission2, .dataXTimes 1 (WIDTH / 8 * HEIGHT)] ∧
    ((runTrace (Epd4in2bc.clear_partial_frame
        ⟨TriColor.White, RefreshLut.Quick⟩ 0 0 8 1)).getD []).count
      (.dataXTimes 0xff (8 / 8 * 1)) = 2 := by
  decide

set_option maxRecDepth 4000 in
/-- C1: for every partial-window update with requested window
(x, y, w, h), the low start-column byte sent to the controller is
`x AND 0xF8` (x truncated down to the nearest multiple of 8 within its low
byte), the low end-column byte is `((x AND 0xF8) + w - 1) OR 0x07` (its low
byte), and the y coordinates are sent byte-exact; this holds for
update_partial_frame and for shift_display as used by the other partial
operations, and a request of x=5, w=10 yields start byte 0 and end byte
15. -/
theorem partial_window_byte_alignment (epd : Epd) (buffer : List Nat)
    (x y w h : Nat) (_hw : 1 ≤ w) (_hh : 1 ≤ h) :
    runTrace (Epd4in2bc.update_partial_frame epd buffer x y w h) =
      some [.waitUntilIdle, .cmd .PartialIn, .cmd .PartialWindow,
            .data [(x >>> 8) % 256], .data [x &&& 0xf8],
            .data [(((x &&& 0xf8) + w - 1) >>> 8) % 256],
            .data [(((x &&& 0xf8) + w - 1) ||| 0x07) % 256],
            .data [(y >>> 8) % 256], .data [y % 256],
            .data [((y + h - 1) >>> 8) % 256], .data [(y + h - 1) % 256],
            .data [0x01], .delayUs 2000,
            .cmd .DataStartTransmission1, .data buffer,
            .cmd .DataStartTransmission2,
            .dataXTimes epd.color.get_bit_value (WIDTH / 8 * HEIGHT),
            .delayUs 2000, .cmd .PartialOut] ∧
    runTrace (Epd4in2bc.shift_display x y w h) =
      some [.data [(x >>> 8) % 256], .data [x &&& 0xf8],
            .data [(((x &&& 0xf8) + w - 1) >>> 8) % 256],
            .data [(((x &&& 0xf8) + w - 1) ||| 0x07) % 256],
            .data [(y >>> 8) % 256], .data [y % 256],
            .data [((y + h - 1) >>> 8) % 256], .data [(y + h - 1) % 256],
            .data [0x01]] ∧
    (∀ x', x' < 256 → x' &&& 0xf8 = 8 * (x' / 8)) ∧
    5 &&& 0xf8 = 0 ∧ ((5 &&& 0xf8) + 10 - 1) ||| 0x07 = 15 := by
  refine ⟨?_, ?_, by decide, by decide, by decide⟩ <;>
    simp [runTrace, st0, allOk, M.run_bind, M.run_pure, M.pure,
      emitInfallible, emitFallible, delay_us,
      DisplayInterface.cmd, DisplayInterface.data, DisplayInterface.data_x_times,
      DisplayInterface.wait_until_idle,
      Epd4in2bc.update_partial_frame, Epd4in2bc.shift_display,
      Epd4in2bc.command, Epd4in2bc.send_data, Epd4in2bc.wait_until_idle,
      and_f8_mod_eq, and_ff_mod_eq]

/-- C1 witness: the window x=5, y=3, w=10, h=2 evaluated concretely; the
start byte is 0 and the end byte is 15. -/
theorem partial_window_byte_alignment_witness :
    runTrace (Epd4in2bc.shift_display 5 3 10 2) =
      some [.data [0], .data [0], .data [0], .data [15],
            .data [0], .data [3], .data [0], .data [4], .data [0x01]] :=
  (partial_window_byte_alignment ⟨TriColor.White, RefreshLut.Quick⟩ []
    5 3 10 2 (by decide) (by decide)).2.1

/-- C6: a buffer whose length differs from w/8 * h is not rejected:
update_partial_frame, update_partial_old_frame and update_partial_new_frame
all succeed when every transport operation succeeds and stream the buffer
as given, because the size-validation check in the source is dead
(commented-out) code. -/
theorem partial_update_ignores_size_mismatch (epd : Epd) (buffer : List Nat)
    (x y w h : Nat) (_hlen : buffer.length ≠ w / 8 * h) :
    (isOkE (Epd4in2bc.update_partial_frame epd buffer x y w h allOk st0) = true ∧
      Event.data buffer ∈
        (runTrace (Epd4in2bc.update_partial_frame epd buffer x y w h)).getD []) ∧
    (isOkE (Epd4in2bc.update_partial_old_frame epd buffer x y w h allOk st0) = true ∧
      Event.data buffer ∈
        (runTrace (Epd4in2bc.update_partial_old_frame epd buffer x y w h)).getD []) ∧
    (isOkE (Epd4in2bc.update_partial_new_frame epd buffer x y w h allOk st0) = true ∧
      Event.data buffer ∈
        (runTrace (Epd4in2bc.update_partial_new_frame epd buffer x y w h)).getD []) := by
  refine ⟨⟨?_, ?_⟩, ⟨?_, ?_⟩, ⟨?_, ?_⟩⟩ <;>
    simp [runTrace, st0, allOk, isOkE, M.run_bind, M.run_pure, M.pure,
      emitInfallible, emitFallible, delay_us,
      DisplayInterface.cmd, DisplayInterface.data, DisplayInterface.data_x_times,
      DisplayInterface.wait_until_idle,
      Epd4in2bc.update_partial_frame, Epd4in2bc.update_partial_old_frame,
      Epd4in2bc.update_partial_new_frame, Epd4in2bc.shift_display,
      Epd4in2bc.command, Epd4in2bc.send_data, Epd4in2bc.wait_until_idle]

/-- C6 witness: the empty buffer for an 8 by 1 window (expected length 1)
is streamed without an error. -/
theorem partial_update_ignores_size_mismatch_witness :
    Event.data [] ∈
      (runTrace (Epd4in2bc.update_partial_old_frame
        ⟨TriColor.White, RefreshLut.Quick⟩ [] 0 0 8 1)).getD [] :=
  (partial_update_ignores_size_mismatch ⟨TriColor.White, RefreshLut.Quick⟩ []
    0 0 8 1 (by decide)).2.1.2

/-- C2 counterexample: update_and_display_frame issues the DisplayRefresh
command without a single LUT register load, refuting the claim that every
operation issuing DisplayRefresh first reloads the five LUT sequences.
Evaluated at the freshly constructed driver state and an empty buffer. -/
theorem update_and_display_frame_skips_lut_reload :
    ((runTrace (Epd4in2bc.update_and_display_frame
        ⟨TriColor.White, RefreshLut.Quick⟩ [])).getD []).count
      (.cmd .DisplayRefresh) = 1 ∧
    ((runTrace (Epd4in2bc.update_and_display_frame
        ⟨TriColor.White, RefreshLut.Quick⟩ [])).getD []).count
      (.cmd .LutForVcom) = 0 ∧
    ((runTrace (Epd4in2bc.update_and_display_frame
        ⟨TriColor.White, RefreshLut.Quick⟩ [])).getD []).count
      (.cmd .LutWhiteToWhite) = 0 ∧
    ((runTrace (Epd4in2bc.update_and_display_frame
        ⟨TriColor.White, RefreshLut.Quick⟩ [])).getD []).count
      (.cmd .LutBlackToWhite) = 0 ∧
    ((runTrace (Epd4in2bc.update_and_display_frame
        ⟨TriColor.White, RefreshLut.Quick⟩ [])).getD []).count
      (.cmd .LutWhiteToBlack) = 0 ∧
    ((runTrace (Epd4in2bc.update_and_display_frame
        ⟨TriColor.White, RefreshLut.Quick⟩ [])).getD []).count
      (.cmd .LutBlackToBlack) = 0 := by
  decide

/-- C2 amended: display_frame reloads the five LUT sequences for the
currently active refresh mode before issuing DisplayRefresh, but
update_and_display_frame issues DisplayRefresh directly after update_frame
with no LUT reload, so the reload-before-refresh guarantee holds for
display_frame only. -/
theorem lut_reload_display_frame_only (L : LutConstants) (epd : Epd)
    (buffer : List Nat) :
    payloadTrace (Epd4in2bc.display_frame L epd) =
      some (lutLoads L epd.refresh ++ [.cmd .DisplayRefresh]) ∧
    runTrace (Epd4in2bc.update_and_display_frame epd buffer) =
      some [.waitUntilIdle, .cmd .DataStartTransmission1, .data buffer,
            .dataXTimes epd.color.get_byte_value (WIDTH / 8 * HEIGHT),
            .cmd .DataStartTransmission2, .data buffer, .cmd .DataStop,
            .cmd .DisplayRefresh] ∧
    Event.cmd Command.LutForVcom ∉
      (runTrace (Epd4in2bc.update_and_display_frame epd buffer)).getD [] := by
  obtain ⟨c, r⟩ := epd
  refine ⟨?_, ?_, ?_⟩ <;> cases r <;>
    simp [runTrace, payloadTrace, payload, Event.isPayload, lutLoads,
      st0, allOk, M.run_bind, M.run_pure, M.pure,
      emitInfallible, emitFallible, delay_us,
      DisplayInterface.cmd, DisplayInterface.data, DisplayInterface.data_x_times,
      DisplayInterface.cmd_with_data, DisplayInterface.wait_until_idle,
      Epd4in2bc.display_frame, Epd4in2bc.set_lut, Epd4in2bc.set_lut_helper,
      Epd4in2bc.update_and_display_frame, Epd4in2bc.update_frame,
      Epd4in2bc.command, Epd4in2bc.send_data, Epd4in2bc.cmd_with_data,
      Epd4in2bc.wait_until_idle]

/-- C2 amended witness: display_frame evaluated at the concrete LUT
assignment and the fresh driver state. -/
theorem lut_reload_display_frame_only_witness :
    payloadTrace (Epd4in2bc.display_frame L0 ⟨TriColor.White, RefreshLut.Quick⟩) =
      some (lutLoads L0 RefreshLut.Quick ++ [.cmd .DisplayRefresh]) :=
  (lut_reload_display_frame_only L0 ⟨TriColor.White, RefreshLut.Quick⟩ []).1

/-- C4: the call sequence update_old_frame(bufA); update_new_frame(bufB);
display_frame() produces exactly the command/data payload
[DataStartTransmission1, bufA, ResolutionSetting, the four width/height
bytes, DataStartTransmission2, bufB, the five LUT register loads,
DisplayRefresh] in that order; update_old_frame does not send the
resolution command and update_new_frame sends it exactly once. -/
theorem quick_refresh_command_trace (L : LutConstants) (epd : Epd)
    (bufA bufB : List Nat) :
    payloadTrace (quickSequence L epd bufA bufB) =
      some ([.cmd .DataStartTransmission1, .data bufA,
             .cmd .ResolutionSetting,
             .data [(WIDTH >>> 8) % 256], .data [WIDTH % 256],
             .data [(HEIGHT >>> 8) % 256], .data [HEIGHT % 256],
             .cmd .DataStartTransmission2, .data bufB]
            ++ lutLoads L epd.refresh ++ [.cmd .DisplayRefresh]) ∧
    Event.cmd Command.ResolutionSetting ∉
      (runTrace (Epd4in2bc.update_old_frame epd bufA)).getD [] ∧
    ((runTrace (Epd4in2bc.update_new_frame epd bufB)).getD []).count
      (.cmd .ResolutionSetting) = 1 := by
  obtain ⟨c, r⟩ := epd
  refine ⟨?_, ?_, ?_⟩ <;> cases r <;>
    simp [runTrace, payloadTrace, payload, Event.isPayload, lutLoads,
      quickSequence, st0, allOk, M.run_bind, M.run_pure, M.pure,
      emitInfallible, emitFallible, delay_us,
      DisplayInterface.cmd, DisplayInterface.data, DisplayInterface.data_x_times,
      DisplayInterface.cmd_with_data, DisplayInterface.wait_until_idle,
      Epd4in2bc.update_old_frame, Epd4in2bc.update_new_frame,
      Epd4in2bc.send_resolution, Epd4in2bc.width, Epd4in2bc.height,
      Epd4in2bc.display_frame, Epd4in2bc.set_lut, Epd4in2bc.set_lut_helper,
      Epd4in2bc.command, Epd4in2bc.send_data, Epd4in2bc.cmd_with_data,
      Epd4in2bc.wait_until_idle, List.count_cons]

/-- C8: construction is all-or-nothing: new succeeds exactly when the whole
init sequence succeeds, a successful new returns precisely what init
produced, any transport error during init is propagated unchanged as the
result of new (so no driver value reaches the caller), and when every
transport operation succeeds new does return a driver. -/
theorem new_all_or_nothing (L : LutConstants) (env : Env) (s : St) :
    isOkE (Epd4in2bc.new L env s) =
      isOkE (Epd4in2bc.init L ⟨DEFAULT_BACKGROUND_COLOR, RefreshLut.Quick⟩ env s) ∧
    (∀ r, Epd4in2bc.new L env s = .ok r →
      Epd4in2bc.init L ⟨DEFAULT_BACKGROUND_COLOR, RefreshLut.Quick⟩ env s = .ok r) ∧
    (∀ e, Epd4in2bc.init L ⟨DEFAULT_BACKGROUND_COLOR, RefreshLut.Quick⟩ env s = .error e →
      Epd4in2bc.new L env s = .error e) ∧
    isOkE (Epd4in2bc.new L allOk st0) = true := by
  have hnew : ∀ (env' : Env) (s' : St), Epd4in2bc.new L env' s' =
      Epd4in2bc.init L ⟨DEFAULT_BACKGROUND_COLOR, RefreshLut.Quick⟩ env' s' := by
    intro env' s'
    simp only [Epd4in2bc.new, M.run_bind]
    cases h : Epd4in2bc.init L ⟨DEFAULT_BACKGROUND_COLOR, RefreshLut.Quick⟩ env' s' with
    | ok p => rfl
    | error e => rfl
  refine ⟨congrArg isOkE (hnew env s),
    fun r h => (hnew env s).symm.trans h,
    fun e h => (hnew env s).trans h, ?_⟩
  rw [hnew allOk st0]
  simp [isOkE, st0, allOk, M.run_bind, M.run_pure, M.pure,
    emitInfallible, emitFallible, delay_us,
    DisplayInterface.reset, DisplayInterface.cmd, DisplayInterface.data,
    DisplayInterface.cmd_with_data, DisplayInterface.wait_until_idle,
    Epd4in2bc.init, Epd4in2bc.set_lut, Epd4in2bc.set_lut_helper,
    Epd4in2bc.send_resolution, Epd4in2bc.width, Epd4in2bc.height,
    Epd4in2bc.command, Epd4in2bc.send_data, Epd4in2bc.cmd_with_data,
    Epd4in2bc.wait_until_idle]

/-- C8 witness: with the concrete LUT assignment and the all-success
transport, new returns exactly what init returned: the fully initialized
driver after 28 successful bus operations and the full init trace. -/
theorem new_all_or_nothing_witness :
    Epd4in2bc.init L0 ⟨DEFAULT_BACKGROUND_COLOR, RefreshLut.Quick⟩ allOk st0 =
      .ok (⟨DEFAULT_BACKGROUND_COLOR, RefreshLut.Quick⟩,
        ⟨28, [.reset 10000 10000,
              .cmd .PowerSetting, .data [0x03, 0x00, 0x2b, 0x2b, 0xff],
              .cmd .BoosterSoftStart, .data [0x17, 0x17, 0x17],
              .cmd .PanelSetting, .data [0x0F],
              .cmd .PllControl, .data [0x3C],
              .cmd .ResolutionSetting, .data [1], .data [144], .data [1], .data [44],
              .cmd .VcmDcSetting, .data [0x12],
              .cmd .VcomAndDataIntervalSetting, .data [0x7f],
              .waitUntilIdle,
              .cmd .LutForVcom, .data [6],
              .cmd .LutWhiteToWhite, .data [7],
              .cmd .LutBlackToWhite, .data [8],
              .cmd .LutWhiteToBlack, .data [9],
              .cmd .LutBlackToBlack, .data [10],
              .cmd .PowerOn, .delayUs 5000, .waitUntilIdle]⟩) :=
  (new_all_or_nothing L0 allOk st0).2.1 _ rfl

/-- C9: for the dual-plane Display4in2b buffer, bw_buffer and
chromatic_buffer are non-overlapping views of the same fixed backing array:
bw_buffer is exactly bytes [0, NUM_DISPLAY_BITS), chromatic_buffer is
exactly bytes [NUM_DISPLAY_BITS, 2*NUM_DISPLAY_BITS), each has length
NUM_DISPLAY_BITS, and together they cover the whole storage. -/
theorem display4in2b_disjoint_views (d : Display4in2b) :
    d.bw_buffer.length = NUM_DISPLAY_BITS ∧
    d.chromatic_buffer.length = NUM_DISPLAY_BITS ∧
    d.bw_buffer ++ d.chromatic_buffer = d.buffer ∧
    (∀ i : Nat, d.bw_buffer[i]? =
      if i < NUM_DISPLAY_BITS then d.buffer[i]? else none) ∧
    (∀ i : Nat, d.chromatic_buffer[i]? = d.buffer[NUM_DISPLAY_BITS + i]?) := by
  refine ⟨?_, ?_, ?_, ?_, ?_⟩
  · simp only [Display4in2b.bw_buffer, Display4in2b.chromatic_offset,
      List.length_take, d.hbuf]
    omega
  · simp only [Display4in2b.chromatic_buffer, Display4in2b.chromatic_offset,
      List.length_drop, d.hbuf]
    omega
  · simp only [Display4in2b.bw_buffer, Display4in2b.chromatic_buffer,
      Display4in2b.chromatic_offset]
    exact List.take_append_drop _ _
  · intro i
    simp only [Display4in2b.bw_buffer, Display4in2b.chromatic_offset,
      List.getElem?_take]
  · intro i
    simp only [Display4in2b.chromatic_buffer, Display4in2b.chromatic_offset,
      List.getElem?_drop]

/-- C9 witness: the views of a concrete buffer. -/
theorem display4in2b_disjoint_views_witness :
    d0.bw_buffer.length = NUM_DISPLAY_BITS :=
  (display4in2b_disjoint_views d0).1

/-- C10: immediately after a successful new the driver's background color
is White (the default background color) and its refresh mode is Quick, so
the first set_lut or display_frame after construction loads the Quick
waveform tables, which differ from the Full ones whenever the underlying
table constants differ. -/
theorem new_defaults_white_quick (L : LutConstants) :
    resultValue (Epd4in2bc.new L allOk st0) =
      some ⟨DEFAULT_BACKGROUND_COLOR, RefreshLut.Quick⟩ ∧
    DEFAULT_BACKGROUND_COLOR = TriColor.White ∧
    payloadTrace
        (Epd4in2bc.set_lut L ⟨DEFAULT_BACKGROUND_COLOR, RefreshLut.Quick⟩ none) =
      some (lutLoads L RefreshLut.Quick) ∧
    payloadTrace
        (Epd4in2bc.display_frame L ⟨DEFAULT_BACKGROUND_COLOR, RefreshLut.Quick⟩) =
      some (lutLoads L RefreshLut.Quick ++ [.cmd .DisplayRefresh]) ∧
    (L.LUT_VCOM0_QUICK ≠ L.LUT_VCOM0 →
      lutLoads L RefreshLut.Quick ≠ lutLoads L RefreshLut.Full) := by
  refine ⟨?_, rfl, ?_, ?_, ?_⟩
  · simp [resultValue, st0, allOk, M.run_bind, M.run_pure, M.pure,
      emitInfallible, emitFallible, delay_us,
      DisplayInterface.reset, DisplayInterface.cmd, DisplayInterface.data,
      DisplayInterface.cmd_with_data, DisplayInterface.wait_until_idle,
      Epd4in2bc.new, Epd4in2bc.init, Epd4in2bc.set_lut, Epd4in2bc.set_lut_helper,
      Epd4in2bc.send_resolution, Epd4in2bc.width, Epd4in2bc.height,
      Epd4in2bc.command, Epd4in2bc.send_data, Epd4in2bc.cmd_with_data,
      Epd4in2bc.wait_until_idle, DEFAULT_BACKGROUND_COLOR]
  · simp [runTrace, payloadTrace, payload, Event.isPayload, lutLoads,
      st0, allOk, M.run_bind, M.run_pure, M.pure,
      emitInfallible, emitFallible,
      DisplayInterface.cmd, DisplayInterface.data,
      DisplayInterface.cmd_with_data, DisplayInterface.wait_until_idle,
      Epd4in2bc.set_lut, Epd4in2bc.set_lut_helper,
      Epd4in2bc.cmd_with_data, Epd4in2bc.wait_until_idle]
  · simp [runTrace, payloadTrace, payload, Event.isPayload, lutLoads,
      st0, allOk, M.run_bind, M.run_pure, M.pure,
      emitInfallible, emitFallible, delay_us,
      DisplayInterface.cmd, DisplayInterface.data,
      DisplayInterface.cmd_with_data, DisplayInterface.wait_until_idle,
      Epd4in2bc.display_frame, Epd4in2bc.set_lut, Epd4in2bc.set_lut_helper,
      Epd4in2bc.command, Epd4in2bc.cmd_with_data, Epd4in2bc.wait_until_idle]
  · intro hne heq
    simp only [lutLoads, List.cons.injEq, Event.data.injEq, and_true,
      true_and] at heq
    exact hne heq.1

/-- C10 witness: the concrete LUT assignment, whose Quick tables differ
from the Full ones. -/
theorem new_defaults_white_quick_witness :
    resultValue (Epd4in2bc.new L0 allOk st0) =
      some ⟨DEFAULT_BACKGROUND_COLOR, RefreshLut.Quick⟩ ∧
    lutLoads L0 RefreshLut.Quick ≠ lutLoads L0 RefreshLut.Full :=
  ⟨(new_defaults_white_quick L0).1,
   (new_defaults_white_quick L0).2.2.2.2 (by decide)⟩

/-- C4 witness: the scenario evaluated at concrete buffers and the concrete
LUT assignment. -/
theorem quick_refresh_command_trace_witness :
    payloadTrace (quickSequence L0 ⟨TriColor.White, RefreshLut.Quick⟩
        [0x12] [0x34]) =
      some ([.cmd .DataStartTransmission1, .data [0x12],
             .cmd .ResolutionSetting,
             .data [(WIDTH >>> 8) % 256], .data [WIDTH % 256],
             .data [(HEIGHT >>> 8) % 256], .data [HEIGHT % 256],
             .cmd .DataStartTransmission2, .data [0x34]]
            ++ lutLoads L0 RefreshLut.Quick ++ [.cmd .DisplayRefresh]) :=
  (quick_refresh_command_trace L0 ⟨TriColor.White, RefreshLut.Quick⟩
    [0x12] [0x34]).1

end EpdWaveshare
